import Mathlib

/-!
Shallow embedding of the `novrin/web` Go library: the `messages` package
(declarative Response dispatcher `Responder.HandlerFunc`) and the
`middleware` package (`Queue`, `Stack`, `AccessLogger`, `RecoverAndHandle`).

Handlers are modelled as request-indexed effect traces over an HTTP
response writer (headers, a once-committed status code, a body sink that
may fail, per the test suite's `errorResponseWriter`).  Middleware are
trace transformers, exactly mirroring the Go middleware which wrap
`http.Handler` values.  Loggers are identified by a numeral, `0` standing
for `slog.Default()`; log records accumulate in an explicit list.
-/

namespace Web

/-- Log levels used by the library (`slog.Info` / `slog.Error`). -/
inductive LogLevel where
  | info
  | error
deriving DecidableEq, Repr

/-- A structured log field value: `slog.String`, `slog.Int`,
`slog.Duration`, or `slog.Any` applied to a list of strings (the stack
trace in `RecoverAndHandle`). -/
inductive FieldVal where
  | str (s : String)
  | int (n : Int)
  | dur (n : Nat)
  | strList (l : List String)
deriving DecidableEq, Repr

/-- One structured log record: the logger it went to (0 = `slog.Default()`),
its level, message, and key/value fields in order. -/
structure LogEntry where
  logger : Nat
  level : LogLevel
  msg : String
  fields : List (String × FieldVal)
deriving DecidableEq, Repr

/-- The state of the live output sink (an `http.ResponseWriter`, e.g.
`httptest.ResponseRecorder`, optionally wrapped by the test suite's
`errorResponseWriter`): accumulated header pairs, the committed status
code (first commit wins, per standard response-writer discipline),
the body bytes written, a count of effective status commits, and
`failWrite`: when `some e`, body writes fail with error `e` without
writing (the `errorResponseWriter` behaviour); when `none`, writes
succeed. -/
structure RW where
  header : List (String × String)
  code : Option Int
  body : String
  commits : Nat
  failWrite : Option String
deriving DecidableEq, Repr

/-- `WriteHeader`: commits the status code if none is committed yet;
subsequent calls are ignored by the sink. -/
def RW.writeHeader (w : RW) (c : Int) : RW :=
  match w.code with
  | some _ => w
  | none => { w with code := some c, commits := w.commits + 1 }

/-- `Write`: fails without writing when the sink is an
`errorResponseWriter`; otherwise commits an implicit 200 if no status was
committed yet, then appends the bytes.  Returns the sink and the error. -/
def RW.write (w : RW) (s : String) : RW × Option String :=
  match w.failWrite with
  | some e => (w, some e)
  | none => ({ w.writeHeader 200 with body := w.body ++ s }, none)

/-- `Header().Add(k, v)`: appends a header pair, preserving order and not
deduplicating. -/
def RW.headerAdd (w : RW) (k v : String) : RW :=
  { w with header := w.header ++ [(k, v)] }

/-- `Header().Set(k, v)`: replaces all values for the key. -/
def RW.headerSet (w : RW) (k v : String) : RW :=
  { w with header := w.header.filter (fun p => p.1 ≠ k) ++ [(k, v)] }

/-- `Header().Del(k)`: removes all values for the key. -/
def RW.headerDel (w : RW) (k : String) : RW :=
  { w with header := w.header.filter (fun p => p.1 ≠ k) }

/-- Execution context of one request: the output sink plus the log
records emitted so far. -/
structure Ctx where
  w : RW
  logs : List LogEntry
deriving DecidableEq, Repr

/-- The effect trace of a handler run: each node is one call against the
response writer or the logger; `write` branches on the write's result
(the error returned by `Write`), `panic` is an in-flight Go panic
carrying the fault's string representation. -/
inductive Trace where
  | done
  | panic (v : String)
  | writeHeader (c : Int) (k : Trace)
  | write (s : String) (k : Option String → Trace)
  | headerAdd (key val : String) (k : Trace)
  | headerSet (key val : String) (k : Trace)
  | headerDel (key : String) (k : Trace)
  | logIt (e : LogEntry) (k : Trace)

/-- Result of running a handler trace: normal completion, or a panic that
escaped (carrying the context at the moment of the panic). -/
inductive RunResult where
  | ok (c : Ctx)
  | panicked (c : Ctx) (v : String)
deriving DecidableEq, Repr

/-- Interpret a trace against a context. -/
def Trace.run : Trace → Ctx → RunResult
  | .done, c => .ok c
  | .panic v, c => .panicked c v
  | .writeHeader n k, c => k.run { c with w := c.w.writeHeader n }
  | .write s k, c => (k (c.w.write s).2).run { c with w := (c.w.write s).1 }
  | .headerAdd a b k, c => k.run { c with w := c.w.headerAdd a b }
  | .headerSet a b k, c => k.run { c with w := c.w.headerSet a b }
  | .headerDel a k, c => k.run { c with w := c.w.headerDel a }
  | .logIt e k, c => k.run { c with logs := c.logs ++ [e] }

/-- An HTTP request, with the fields the library reads: `r.Method`,
`r.URL.Path`, `r.URL.RequestURI()` (path with query), `r.Proto`,
`r.RemoteAddr`, and `r.Header.Get("User-Agent")`. -/
structure Request where
  method : String
  path : String
  requestURI : String
  proto : String
  remoteAddr : String
  userAgent : String
deriving DecidableEq, Repr

/-- A transport-level handler (`http.Handler`): request to effect trace. -/
def Handler : Type := Request → Trace

/-- A body-writing procedure (`func(io.Writer) error`): a program that
writes chunks to the given sink, observing each write's error, and
finally returns `nil` (`done`) or an error (`fail`). -/
inductive BodyW where
  | done
  | fail (e : String)
  | write (s : String) (k : Option String → BodyW)

/-- Run a body procedure against the live sink (`resp.WriteBody(w)`),
returning the final sink state and the procedure's returned error. -/
def BodyW.runW : BodyW → RW → RW × Option String
  | .done, w => (w, none)
  | .fail e, w => (w, some e)
  | .write s k, w => (k (w.write s).2).runW (w.write s).1

/-- Run a body procedure against an in-memory `bytes.Buffer`
(`resp.WriteBody(&buf)`): buffer writes always succeed.  Returns the
buffered bytes and the procedure's returned error. -/
def BodyW.runBuf : BodyW → String → String × Option String
  | .done, acc => (acc, none)
  | .fail e, acc => (acc, some e)
  | .write s k, acc => (k none).runBuf (acc ++ s)

/-- `buf.WriteTo(w)`: copies the buffered bytes to the live sink in one
write; an empty buffer performs no write and cannot fail. -/
def writeTo (buf : String) (w : RW) : RW × Option String :=
  if buf = "" then (w, none) else w.write buf

end Web

namespace Web

/-! ## messages package -/

/-- A declarative HTTP response (`messages.Response`): status code,
multi-valued ordered headers, and an optional body-writing procedure. -/
structure Response where
  Status : Int
  Headers : List (String × List String) := []
  WriteBody : Option BodyW := none

/-- `messages.ResponseHandlerFunc`: request to `Response`. -/
def ResponseHandlerFunc : Type := Request → Response

/-- `messages.Responder`: optional logger and buffering flag. -/
structure Responder where
  Logger : Option Nat := none
  Buffer : Bool := false

/-- `Responder.logger()`: the configured logger, or `slog.Default()`
(identified by 0) when unset. -/
def Responder.logger (re : Responder) : Nat :=
  match re.Logger with
  | none => 0
  | some l => l

/-- `http.StatusText(http.StatusInternalServerError)`. -/
def statusText500 : String := "Internal Server Error"

/-- `http.Error(w, msg, code)`: deletes Content-Length, sets
Content-Type and X-Content-Type-Options, writes the status, then
`fmt.Fprintln(w, msg)` (whose error is ignored). -/
def httpErrorTr (msg : String) (code : Int) (k : Trace) : Trace :=
  .headerDel "Content-Length"
    (.headerSet "Content-Type" "text/plain; charset=utf-8"
      (.headerSet "X-Content-Type-Options" "nosniff"
        (.writeHeader code (.write (msg ++ "\n") (fun _ => k)))))

/-- Inner loop of the header copy: `for _, v := range vals { w.Header().Add(k, v) }`. -/
def addValsTr (key : String) : List String → Trace → Trace
  | [], k => k
  | v :: vs, k => .headerAdd key v (addValsTr key vs k)

/-- Header copy: `for k, vals := range resp.Headers { ... Add ... }`. -/
def addHeadersTr : List (String × List String) → Trace → Trace
  | [], k => k
  | (key, vs) :: rest, k => addValsTr key vs (addHeadersTr rest k)

/-- The error record logged on an invalid `Response.Status`. -/
def invalidStatusEntry (lg : Nat) (r : Request) : LogEntry :=
  ⟨lg, .error, "Handler returned a Response with invalid status code",
   [("method", .str r.method), ("path", .str r.path)]⟩

/-- The error record logged on a streaming body-write failure. -/
def streamErrEntry (lg : Nat) (path e : String) : LogEntry :=
  ⟨lg, .error, "Error streaming response body",
   [("path", .str path), ("error", .str e)]⟩

/-- The error record logged on a buffered body-write failure. -/
def bufferErrEntry (lg : Nat) (path e : String) : LogEntry :=
  ⟨lg, .error, "Error buffering response body",
   [("path", .str path), ("error", .str e)]⟩

/-- The error record logged on a post-commit buffer flush failure. -/
def flushErrEntry (lg : Nat) (path e : String) : LogEntry :=
  ⟨lg, .error, "Error flushing buffered response",
   [("path", .str path), ("error", .str e)]⟩

/-- Streaming mode: run the body procedure against the live sink; if it
returns an error, log it (status already committed, no HTTP error). -/
def streamBody (lg : Nat) (path : String) : BodyW → Trace
  | .done => .done
  | .fail e => .logIt (streamErrEntry lg path e) .done
  | .write s k => .write s (fun res => streamBody lg path (k res))

/-- Buffered mode, after a successful buffer fill: `buf.WriteTo(w)`; on
error, log it (status already committed, no HTTP error). -/
def flushTr (lg : Nat) (path : String) (buf : String) : Trace :=
  if buf = "" then .done
  else
    .write buf (fun res =>
      match res with
      | none => .done
      | some e => .logIt (flushErrEntry lg path e) .done)

/-- `Responder.HandlerFunc`: the dispatcher.  Validates the status,
copies headers, then writes the body per the streaming/buffered mode,
logging errors exactly as the Go source does. -/
def Responder.HandlerFunc (re : Responder) (fn : ResponseHandlerFunc) : Handler :=
  fun r =>
    let resp := fn r
    if resp.Status < 100 ∨ resp.Status > 599 then
      .logIt (invalidStatusEntry re.logger r) (httpErrorTr statusText500 500 .done)
    else
      addHeadersTr resp.Headers
        (match resp.WriteBody with
         | none => .writeHeader resp.Status .done
         | some b =>
           if re.Buffer = false then
             .writeHeader resp.Status (streamBody re.logger r.path b)
           else
             match b.runBuf "" with
             | (_, some e) =>
               .logIt (bufferErrEntry re.logger r.path e) (httpErrorTr statusText500 500 .done)
             | (buf, none) =>
               .writeHeader resp.Status (flushTr re.logger r.path buf))

end Web

namespace Web

/-! ## middleware package -/

/-- A middleware (`func(http.Handler) http.Handler`). -/
def Middleware : Type := Handler → Handler

/-- `middleware.Queue`: `for i := range ms { h = ms[i](h) }` — each next
middleware wraps the accumulated handler, so the last one ends outermost. -/
def Queue (ms : List Middleware) : Middleware :=
  fun h => ms.foldl (fun acc m => m acc) h

/-- `middleware.Stack`: `for i := range ms { h = ms[len(ms)-1-i](h) }` —
iterates in reverse, so the first middleware ends outermost. -/
def Stack (ms : List Middleware) : Middleware :=
  fun h => ms.reverse.foldl (fun acc m => m acc) h

/-- Logger fallback used by the middleware constructors:
`if logger == nil { logger = slog.Default() }`. -/
def resolveLogger : Option Nat → Nat
  | none => 0
  | some l => l

/-- `captureWriter.WriteHeader`'s status conversion: a zero status code
is recorded and delegated as `http.StatusOK`. -/
def captureWriterConvert (statusCode : Int) : Int :=
  if statusCode = 0 then 200 else statusCode

/-- The single record emitted by `AccessLogger` after the wrapped
handler returns. -/
def accessEntry (lg : Nat) (pre : String) (r : Request) (status : Int) (elapsed : Nat) :
    LogEntry :=
  ⟨lg, .info, pre,
   [("src", .str r.remoteAddr), ("method", .str r.method),
    ("dest", .str r.requestURI), ("proto", .str r.proto),
    ("status", .int status), ("user-agent", .str r.userAgent),
    ("duration", .dur elapsed)]⟩

/-- Interpose the `captureWriter` adapter on a handler trace: every
`WriteHeader` call is converted (zero becomes 200) and recorded in the
adapter's status field (`status`, last call wins); after the handler
completes normally the access record is emitted with the captured
status.  A panic propagates without emitting the record. -/
def accessTr (lg : Nat) (pre : String) (r : Request) (elapsed : Nat) (status : Int) :
    Trace → Trace
  | .done => .logIt (accessEntry lg pre r status elapsed) .done
  | .panic v => .panic v
  | .writeHeader c k =>
    .writeHeader (captureWriterConvert c)
      (accessTr lg pre r elapsed (captureWriterConvert c) k)
  | .write s k => .write s (fun res => accessTr lg pre r elapsed status (k res))
  | .headerAdd a b k => .headerAdd a b (accessTr lg pre r elapsed status k)
  | .headerSet a b k => .headerSet a b (accessTr lg pre r elapsed status k)
  | .headerDel a k => .headerDel a (accessTr lg pre r elapsed status k)
  | .logIt e k => .logIt e (accessTr lg pre r elapsed status k)

/-- `middleware.AccessLogger`: wraps the sink in a fresh capture adapter
(initial status 0), runs the wrapped handler, then logs one record.
`elapsed` is the ambient measured duration of the request. -/
def AccessLogger (logger : Option Nat) (pre : String) (elapsed : Nat) : Middleware :=
  fun h r => accessTr (resolveLogger logger) pre r elapsed 0 (h r)

/-- The error record logged by the panic barrier: the fault's string
representation and the captured stack trace split into lines. -/
def panicEntry (lg : Nat) (v : String) (stack : String) : LogEntry :=
  ⟨lg, .error, "PANIC caught by middleware.PanicBroker",
   [("error", .str v), ("stack", .strList (stack.splitOn "\n"))]⟩

/-- The deferred `recover` of `RecoverAndHandle`: effects before the
panic stand; at the panic, log the fault and continue with the fallback
handler's trace. -/
def recoverTr (fb : Trace) (lg : Nat) (stack : String) : Trace → Trace
  | .done => .done
  | .panic v => .logIt (panicEntry lg v stack) fb
  | .writeHeader c k => .writeHeader c (recoverTr fb lg stack k)
  | .write s k => .write s (fun res => recoverTr fb lg stack (k res))
  | .headerAdd a b k => .headerAdd a b (recoverTr fb lg stack k)
  | .headerSet a b k => .headerSet a b (recoverTr fb lg stack k)
  | .headerDel a k => .headerDel a (recoverTr fb lg stack k)
  | .logIt e k => .logIt e (recoverTr fb lg stack k)

/-- `middleware.RecoverAndHandle`: the panic barrier around a handler,
with the fallback handler, the (optional) logger, and the ambient
`debug.Stack()` bytes captured at the panic. -/
def RecoverAndHandle (fallback : Handler) (logger : Option Nat) (stack : String) :
    Middleware :=
  fun h r => recoverTr (fallback r) (resolveLogger logger) stack (h r)

end Web

namespace Web

/-! ## Derived state-level semantics and fixtures used in statements -/

/-- State-level effect of the inner header-copy loop. -/
def addVals (w : RW) (key : String) (vs : List String) : RW :=
  vs.foldl (fun w v => w.headerAdd key v) w

/-- State-level effect of the header-copy step of the dispatcher. -/
def applyHeaders (w : RW) (hs : List (String × List String)) : RW :=
  hs.foldl (fun w kv => addVals w kv.1 kv.2) w

/-- The flat list of header pairs a multi-valued header map denotes. -/
def headerPairs : List (String × List String) → List (String × String)
  | [] => []
  | (key, vs) :: rest => vs.map (fun v => (key, v)) ++ headerPairs rest

/-- State-level effect of `http.Error(w, msg, code)`. -/
def httpErrorRW (w : RW) (msg : String) (code : Int) : RW :=
  (((((w.headerDel "Content-Length").headerSet "Content-Type"
      "text/plain; charset=utf-8").headerSet "X-Content-Type-Options"
      "nosniff").writeHeader code).write (msg ++ "\n")).1

/-- Whether the dispatcher run starting from sink `w` takes an error
path: invalid status, streaming body-write failure, buffered body-write
failure, or buffered post-commit flush failure. -/
def dispatchErr (re : Responder) (fn : ResponseHandlerFunc) (r : Request) (w : RW) :
    Bool :=
  let resp := fn r
  if resp.Status < 100 ∨ resp.Status > 599 then true
  else
    match resp.WriteBody with
    | none => false
    | some b =>
      if re.Buffer = false then
        ((b.runW ((applyHeaders w resp.Headers).writeHeader resp.Status)).2).isSome
      else
        match b.runBuf "" with
        | (_, some _) => true
        | (buf, none) =>
          ((writeTo buf ((applyHeaders w resp.Headers).writeHeader resp.Status)).2).isSome

/-- Run a handler trace as seen through a `captureWriter` adapter whose
status field is `s`: `WriteHeader` calls are converted (zero becomes
200), delegated, and recorded (last call wins).  Returns the run result
and the adapter's final captured status. -/
def runCap : Trace → Ctx → Int → RunResult × Int
  | .done, c, s => (.ok c, s)
  | .panic v, c, s => (.panicked c v, s)
  | .writeHeader n k, c, s =>
    runCap k { c with w := c.w.writeHeader (captureWriterConvert n) }
      (captureWriterConvert n)
  | .write str k, c, s => runCap (k (c.w.write str).2) { c with w := (c.w.write str).1 } s
  | .headerAdd a b k, c, s => runCap k { c with w := c.w.headerAdd a b } s
  | .headerSet a b k, c, s => runCap k { c with w := c.w.headerSet a b } s
  | .headerDel a k, c, s => runCap k { c with w := c.w.headerDel a } s
  | .logIt e k, c, s => runCap k { c with logs := c.logs ++ [e] } s

/-- The test suite's `sign` middleware: writes its mark, then delegates
to the wrapped handler. -/
def sign (msg : String) : Middleware :=
  fun h r => .write msg (fun _ => h r)

/-- The test suite's core handler: writes `"core"`. -/
def coreHandler : Handler :=
  fun _ => .write "core" (fun _ => .done)

/-- A trace that writes the given chunks in order, then continues. -/
def writesTr : List String → Trace → Trace
  | [], t => t
  | m :: ms, t => .write m (fun _ => writesTr ms t)

/-- State-level effect of writing a list of chunks in order. -/
def writeAll (w : RW) (ms : List String) : RW :=
  ms.foldl (fun w m => (w.write m).1) w

/-- A concrete GET / request, as built by `httptest.NewRequest`. -/
def req0 : Request :=
  ⟨"GET", "/", "/", "HTTP/1.1", "192.0.2.1:1234", "Go-http-client/1.1"⟩

/-- A fresh working sink: no headers, no committed status, empty body,
writes succeed. -/
def freshRW : RW := ⟨[], none, "", 0, none⟩

/-- A fresh sink wrapped in the test suite's `errorResponseWriter`:
writes fail with "write failure". -/
def failRW : RW := ⟨[], none, "", 0, some "write failure"⟩

/-- A fresh request context over `freshRW`. -/
def freshCtx : Ctx := ⟨freshRW, []⟩

end Web

namespace Web

/-! ## Helper lemmas -/

theorem str_append_assoc (a b c : String) : a ++ b ++ c = a ++ (b ++ c) := by
  apply String.ext
  simp [String.data_append]

theorem str_append_empty (a : String) : a ++ "" = a := by
  apply String.ext
  simp [String.data_append]

theorem writeHeader_of_none {w : RW} (h : w.code = none) (c : Int) :
    w.writeHeader c = { w with code := some c, commits := w.commits + 1 } := by
  simp [RW.writeHeader, h]

theorem writeHeader_of_some {w : RW} {s : Int} (h : w.code = some s) (c : Int) :
    w.writeHeader c = w := by
  simp [RW.writeHeader, h]

theorem writeHeader_failWrite (w : RW) (c : Int) :
    (w.writeHeader c).failWrite = w.failWrite := by
  cases h : w.code <;> simp [RW.writeHeader, h]

theorem writeHeader_header (w : RW) (c : Int) :
    (w.writeHeader c).header = w.header := by
  cases h : w.code <;> simp [RW.writeHeader, h]

theorem writeHeader_body (w : RW) (c : Int) :
    (w.writeHeader c).body = w.body := by
  cases h : w.code <;> simp [RW.writeHeader, h]

theorem write_of_fail {w : RW} {e : String} (h : w.failWrite = some e) (s : String) :
    w.write s = (w, some e) := by
  simp [RW.write, h]

theorem write_of_ok {w : RW} (h : w.failWrite = none) (s : String) :
    w.write s = ({ w.writeHeader 200 with body := w.body ++ s }, none) := by
  simp [RW.write, h]

theorem write_fst_failWrite (w : RW) (s : String) :
    ((w.write s).1).failWrite = w.failWrite := by
  cases h : w.failWrite <;> simp [RW.write, h, writeHeader_failWrite]

theorem write_fst_header (w : RW) (s : String) :
    ((w.write s).1).header = w.header := by
  cases h : w.failWrite <;> simp [RW.write, h, writeHeader_header]

theorem write_fst_of_committed {w : RW} {st : Int} (hc : w.code = some st) (s : String) :
    (w.write s).1.code = some st ∧ (w.write s).1.commits = w.commits := by
  cases h : w.failWrite <;> simp [RW.write, h, writeHeader_of_some hc, hc]

theorem writeTo_fst_of_committed {w : RW} {st : Int} (hc : w.code = some st)
    (buf : String) :
    (writeTo buf w).1.code = some st ∧ (writeTo buf w).1.commits = w.commits ∧
    (writeTo buf w).1.header = w.header := by
  by_cases hb : buf = ""
  · simp [writeTo, hb, hc]
  · have h1 := write_fst_of_committed hc buf
    have h2 := write_fst_header w buf
    simp only [writeTo, if_neg hb]
    exact ⟨h1.1, h1.2, h2⟩

theorem addVals_spec (key : String) (vs : List String) (w : RW) :
    addVals w key vs = { w with header := w.header ++ vs.map (fun v => (key, v)) } := by
  induction vs generalizing w with
  | nil => simp [addVals]
  | cons v vs ih =>
    show addVals (w.headerAdd key v) key vs = _
    rw [ih]
    simp [RW.headerAdd]

theorem applyHeaders_spec (hs : List (String × List String)) (w : RW) :
    applyHeaders w hs = { w with header := w.header ++ headerPairs hs } := by
  induction hs generalizing w with
  | nil => simp [applyHeaders, headerPairs]
  | cons kv rest ih =>
    show applyHeaders (addVals w kv.1 kv.2) rest = _
    rw [ih, addVals_spec]
    simp [headerPairs]

theorem run_addValsTr (key : String) (vs : List String) (k : Trace) (c : Ctx) :
    (addValsTr key vs k).run c = k.run { c with w := addVals c.w key vs } := by
  induction vs generalizing c with
  | nil => simp [addValsTr, addVals]
  | cons v vs ih =>
    show (addValsTr key vs k).run { c with w := c.w.headerAdd key v } = _
    rw [ih]
    rfl

theorem run_addHeadersTr (hs : List (String × List String)) (k : Trace) (c : Ctx) :
    (addHeadersTr hs k).run c = k.run { c with w := applyHeaders c.w hs } := by
  induction hs generalizing c with
  | nil => simp [addHeadersTr, applyHeaders]
  | cons kv rest ih =>
    show (addValsTr kv.1 kv.2 (addHeadersTr rest k)).run c = _
    rw [run_addValsTr, ih]
    rfl

theorem run_httpErrorTr (msg : String) (code : Int) (k : Trace) (c : Ctx) :
    (httpErrorTr msg code k).run c = k.run { c with w := httpErrorRW c.w msg code } := by
  rfl

theorem runW_committed {st : Int} (b : BodyW) :
    ∀ (w : RW), w.code = some st →
      (b.runW w).1.code = some st ∧ (b.runW w).1.commits = w.commits ∧
      (b.runW w).1.header = w.header ∧ (b.runW w).1.failWrite = w.failWrite := by
  induction b with
  | done => intro w h; simp [BodyW.runW, h]
  | fail e => intro w h; simp [BodyW.runW, h]
  | write s k ih =>
    intro w h
    simp only [BodyW.runW]
    have h1 := write_fst_of_committed h s
    have h2 := write_fst_header w s
    have h3 := write_fst_failWrite w s
    have hrec := ih (w.write s).2 (w.write s).1 h1.1
    refine ⟨hrec.1, ?_, ?_, ?_⟩
    · rw [hrec.2.1, h1.2]
    · rw [hrec.2.2.1, h2]
    · rw [hrec.2.2.2, h3]

theorem run_streamBody (lg : Nat) (p : String) (b : BodyW) :
    ∀ (c : Ctx),
      (streamBody lg p b).run c =
        .ok ⟨(b.runW c.w).1,
             c.logs ++ (match (b.runW c.w).2 with
                        | none => []
                        | some e => [streamErrEntry lg p e])⟩ := by
  induction b with
  | done => intro c; simp [streamBody, BodyW.runW, Trace.run]
  | fail e => intro c; simp [streamBody, BodyW.runW, Trace.run]
  | write s k ih =>
    intro c
    show (streamBody lg p (k (c.w.write s).2)).run { c with w := (c.w.write s).1 } = _
    rw [ih]
    rfl

theorem run_flushTr (lg : Nat) (p : String) (buf : String) (c : Ctx) :
    (flushTr lg p buf).run c =
      .ok ⟨(writeTo buf c.w).1,
           c.logs ++ (match (writeTo buf c.w).2 with
                      | none => []
                      | some e => [flushErrEntry lg p e])⟩ := by
  by_cases hb : buf = ""
  · subst hb; simp [flushTr, writeTo, Trace.run]
  · simp only [flushTr, writeTo, if_neg hb, Trace.run]
    cases h : (c.w.write buf).2 <;> simp [h, Trace.run]

theorem run_recoverTr (fb : Trace) (lg : Nat) (st : String) (t : Trace) :
    ∀ (c : Ctx),
      (recoverTr fb lg st t).run c =
        match t.run c with
        | .ok c₁ => .ok c₁
        | .panicked c₁ v => fb.run { c₁ with logs := c₁.logs ++ [panicEntry lg v st] } := by
  induction t with
  | done => intro c; simp [recoverTr, Trace.run]
  | panic v => intro c; simp [recoverTr, Trace.run]
  | writeHeader n k ih => intro c; exact ih _
  | write s k ih => intro c; exact ih _ _
  | headerAdd a b k ih => intro c; exact ih _
  | headerSet a b k ih => intro c; exact ih _
  | headerDel a k ih => intro c; exact ih _
  | logIt e k ih => intro c; exact ih _

theorem run_accessTr (lg : Nat) (pre : String) (r : Request) (el : Nat) (t : Trace) :
    ∀ (c : Ctx) (s : Int),
      (accessTr lg pre r el s t).run c =
        match runCap t c s with
        | (.ok c₁, s') => .ok { c₁ with logs := c₁.logs ++ [accessEntry lg pre r s' el] }
        | (.panicked c₁ v, _) => .panicked c₁ v := by
  induction t with
  | done => intro c s; simp [accessTr, runCap, Trace.run]
  | panic v => intro c s; simp [accessTr, runCap, Trace.run]
  | writeHeader n k ih => intro c s; exact ih _ _
  | write str k ih => intro c s; exact ih _ _ _
  | headerAdd a b k ih => intro c s; exact ih _ _
  | headerSet a b k ih => intro c s; exact ih _ _
  | headerDel a k ih => intro c s; exact ih _ _
  | logIt e k ih => intro c s; exact ih _ _

theorem writesTr_append (xs : List String) (m : String) (t : Trace) :
    writesTr (xs ++ [m]) t = writesTr xs (.write m (fun _ => t)) := by
  induction xs with
  | nil => rfl
  | cons x xs ih =>
    show Trace.write x (fun _ => writesTr (xs ++ [m]) t) = _
    rw [ih]
    rfl

theorem foldl_sign (msgs : List String) (h : Handler) (r : Request) :
    (List.foldl (fun acc m => m acc) h (msgs.map sign)) r = writesTr msgs.reverse (h r) := by
  induction msgs generalizing h with
  | nil => rfl
  | cons m ms ih =>
    show (List.foldl _ (sign m h) (ms.map sign)) r = _
    rw [ih (sign m h), List.reverse_cons, writesTr_append]
    rfl

theorem run_writesTr (ms : List String) :
    ∀ (t : Trace) (c : Ctx), c.w.failWrite = none →
      (writesTr ms t).run c = t.run { c with w := writeAll c.w ms } := by
  induction ms with
  | nil => intro t c _; simp [writesTr, writeAll]
  | cons m ms ih =>
    intro t c hf
    show (writesTr ms t).run { c with w := (c.w.write m).1 } = _
    rw [ih]
    · rfl
    · show ((c.w.write m).1).failWrite = none
      rw [write_fst_failWrite, hf]

theorem str_empty_append (a : String) : "" ++ a = a := by
  apply String.ext
  simp [String.data_append]

theorem str_foldl_append (ms : List String) :
    ∀ (a b : String),
      List.foldl (fun r s => r ++ s) (a ++ b) ms =
        a ++ List.foldl (fun r s => r ++ s) b ms := by
  induction ms with
  | nil => intro a b; rfl
  | cons m ms ih =>
    intro a b
    show List.foldl _ (a ++ b ++ m) ms = _
    rw [str_append_assoc, ih]
    rfl

theorem str_join_cons (m : String) (ms : List String) :
    String.join (m :: ms) = m ++ String.join ms := by
  show List.foldl _ ("" ++ m) ms = m ++ List.foldl _ "" ms
  rw [show ("" ++ m) = (m ++ "") by rw [str_empty_append, str_append_empty]]
  exact str_foldl_append ms m ""

theorem writeAll_body (ms : List String) :
    ∀ (w : RW), w.failWrite = none →
      (writeAll w ms).body = w.body ++ String.join ms ∧
      (writeAll w ms).failWrite = none := by
  induction ms with
  | nil =>
    intro w h
    refine ⟨?_, h⟩
    show w.body = w.body ++ String.join []
    rw [String.join, List.foldl_nil, str_append_empty]
  | cons m ms ih =>
    intro w h
    have hw := write_of_ok h m
    have h1 : ((w.write m).1).failWrite = none := by rw [write_fst_failWrite, h]
    have hrec := ih (w.write m).1 h1
    constructor
    · rw [show writeAll w (m :: ms) = writeAll (w.write m).1 ms from rfl, hrec.1]
      rw [hw]
      show w.body ++ m ++ String.join ms = w.body ++ String.join (m :: ms)
      rw [str_append_assoc, str_join_cons]
    · exact hrec.2

theorem httpErrorRW_spec {w : RW} (h : w.code = none) (msg : String) (code : Int) :
    (httpErrorRW w msg code).code = some code ∧
    (httpErrorRW w msg code).commits = w.commits + 1 ∧
    (w.failWrite = none → (httpErrorRW w msg code).body = w.body ++ (msg ++ "\n")) := by
  unfold httpErrorRW RW.headerDel RW.headerSet
  cases hf : w.failWrite <;>
    simp [RW.writeHeader, RW.write, h, hf]

theorem run_invalid (re : Responder) (fn : ResponseHandlerFunc) (r : Request) (c : Ctx)
    (hinv : (fn r).Status < 100 ∨ (fn r).Status > 599) :
    (Responder.HandlerFunc re fn r).run c =
      .ok ⟨httpErrorRW c.w statusText500 500,
           c.logs ++ [invalidStatusEntry re.logger r]⟩ := by
  simp only [Responder.HandlerFunc]
  rw [if_pos hinv]
  rfl

theorem run_nilBody (re : Responder) (fn : ResponseHandlerFunc) (r : Request) (c : Ctx)
    (hv : ¬((fn r).Status < 100 ∨ (fn r).Status > 599))
    (hnil : (fn r).WriteBody = none) :
    (Responder.HandlerFunc re fn r).run c =
      (Trace.writeHeader (fn r).Status Trace.done).run
        { c with w := applyHeaders c.w (fn r).Headers } := by
  simp only [Responder.HandlerFunc]
  rw [if_neg hv]
  rw [run_addHeadersTr]
  simp only [hnil]

theorem run_stream (re : Responder) (fn : ResponseHandlerFunc) (r : Request) (c : Ctx)
    (b : BodyW)
    (hv : ¬((fn r).Status < 100 ∨ (fn r).Status > 599))
    (hb : (fn r).WriteBody = some b)
    (hbuf : re.Buffer = false) :
    (Responder.HandlerFunc re fn r).run c =
      (Trace.writeHeader (fn r).Status (streamBody re.logger r.path b)).run
        { c with w := applyHeaders c.w (fn r).Headers } := by
  simp only [Responder.HandlerFunc]
  rw [if_neg hv]
  rw [run_addHeadersTr]
  simp only [hb, hbuf, if_pos]

theorem run_buffered_err (re : Responder) (fn : ResponseHandlerFunc) (r : Request)
    (c : Ctx) (b : BodyW) (buf e : String)
    (hv : ¬((fn r).Status < 100 ∨ (fn r).Status > 599))
    (hb : (fn r).WriteBody = some b)
    (hbuf : re.Buffer = true)
    (hrb : b.runBuf "" = (buf, some e)) :
    (Responder.HandlerFunc re fn r).run c =
      (Trace.logIt (bufferErrEntry re.logger r.path e)
          (httpErrorTr statusText500 500 Trace.done)).run
        { c with w := applyHeaders c.w (fn r).Headers } := by
  simp only [Responder.HandlerFunc]
  rw [if_neg hv]
  rw [run_addHeadersTr]
  simp only [hb, hbuf, hrb]
  rw [if_neg (by decide : ¬(true = false))]

theorem run_buffered_ok (re : Responder) (fn : ResponseHandlerFunc) (r : Request)
    (c : Ctx) (b : BodyW) (buf : String)
    (hv : ¬((fn r).Status < 100 ∨ (fn r).Status > 599))
    (hb : (fn r).WriteBody = some b)
    (hbuf : re.Buffer = true)
    (hrb : b.runBuf "" = (buf, none)) :
    (Responder.HandlerFunc re fn r).run c =
      (Trace.writeHeader (fn r).Status (flushTr re.logger r.path buf)).run
        { c with w := applyHeaders c.w (fn r).Headers } := by
  simp only [Responder.HandlerFunc]
  rw [if_neg hv]
  rw [run_addHeadersTr]
  simp only [hb, hbuf, hrb]
  rw [if_neg (by decide : ¬(true = false))]

end Web

namespace Web

/-! ## Claims -/

/-- C1: for every request where the ResponseHandler returns a Response
whose Status is outside [100, 599] (including 0), the dispatcher sends
status 500 to the client, emits exactly one error log entry whose
message contains "invalid status" with fields method and path, and
returns without writing the Response's body (the client body gains only
the generic status text). -/
theorem c1_invalid_status (re : Responder) (fn : ResponseHandlerFunc) (r : Request)
    (c : Ctx)
    (hinv : (fn r).Status < 100 ∨ (fn r).Status > 599)
    (hfresh : c.w.code = none) (hfw : c.w.failWrite = none) :
    ∃ w',
      (Responder.HandlerFunc re fn r).run c =
        .ok ⟨w', c.logs ++ [invalidStatusEntry re.logger r]⟩ ∧
      w'.code = some 500 ∧
      w'.body = c.w.body ++ (statusText500 ++ "\n") ∧
      (invalidStatusEntry re.logger r).level = .error ∧
      (invalidStatusEntry re.logger r).fields =
        [("method", .str r.method), ("path", .str r.path)] ∧
      (invalidStatusEntry re.logger r).msg =
        "Handler returned a Response with " ++ "invalid status" ++ " code" := by
  have hs := httpErrorRW_spec hfresh statusText500 500
  exact ⟨httpErrorRW c.w statusText500 500, run_invalid re fn r c hinv,
    hs.1, hs.2.2 hfw, rfl, rfl, by rfl⟩

/-- C9: for every request where the Response has a valid status and a
nil body procedure, the dispatcher copies the Response's headers, then
commits the status line, writes zero body bytes and produces no log
entries. -/
theorem c9_nil_body (re : Responder) (fn : ResponseHandlerFunc) (r : Request) (c : Ctx)
    (hlo : 100 ≤ (fn r).Status) (hhi : (fn r).Status ≤ 599)
    (hnil : (fn r).WriteBody = none)
    (hfresh : c.w.code = none) :
    (Responder.HandlerFunc re fn r).run c =
      .ok ⟨{ c.w with
               header := c.w.header ++ headerPairs (fn r).Headers
               code := some (fn r).Status
               commits := c.w.commits + 1 }, c.logs⟩ := by
  have hv : ¬((fn r).Status < 100 ∨ (fn r).Status > 599) := by omega
  rw [run_nilBody re fn r c hv hnil]
  show Trace.run Trace.done _ = _
  rw [applyHeaders_spec]
  rw [writeHeader_of_none (by simpa using hfresh)]
  rfl

/-- C10: on the invalid-status path none of the Response's header
key/value pairs reach the outgoing response: any two Responses with an
invalid status produce identical runs regardless of their headers and
body, and the final sink is exactly `http.Error`'s effect on the
incoming sink. -/
theorem c10_invalid_headers_discarded (re : Responder) (fn fn' : ResponseHandlerFunc)
    (r : Request) (c : Ctx)
    (h1 : (fn r).Status < 100 ∨ (fn r).Status > 599)
    (h2 : (fn' r).Status < 100 ∨ (fn' r).Status > 599) :
    (Responder.HandlerFunc re fn r).run c = (Responder.HandlerFunc re fn' r).run c ∧
    (Responder.HandlerFunc re fn r).run c =
      .ok ⟨httpErrorRW c.w statusText500 500,
           c.logs ++ [invalidStatusEntry re.logger r]⟩ := by
  rw [run_invalid re fn r c h1, run_invalid re fn' r c h2]
  exact ⟨rfl, rfl⟩

/-- C2: on every post-commit failure path — streaming body-write
failure, or buffered flush failure after a successful buffer fill — the
client status stays the originally committed Response status, exactly
one error log entry with fields path and error is emitted, and no HTTP
error response is attempted (the headers stay exactly the copied
Response headers and no further status is committed). -/
theorem c2_post_commit (re : Responder) (fn : ResponseHandlerFunc) (r : Request)
    (c : Ctx) (b : BodyW) (e : String)
    (hfresh : c.w.code = none)
    (hb : (fn r).WriteBody = some b)
    (hlo : 100 ≤ (fn r).Status) (hhi : (fn r).Status ≤ 599)
    (hfail :
      (re.Buffer = false ∧
        (b.runW ((applyHeaders c.w (fn r).Headers).writeHeader (fn r).Status)).2 =
          some e) ∨
      (re.Buffer = true ∧ (b.runBuf "").2 = none ∧
        (writeTo (b.runBuf "").1
          ((applyHeaders c.w (fn r).Headers).writeHeader (fn r).Status)).2 = some e)) :
    ∃ w' msg,
      (Responder.HandlerFunc re fn r).run c =
        .ok ⟨w', c.logs ++
          [⟨re.logger, .error, msg, [("path", .str r.path), ("error", .str e)]⟩]⟩ ∧
      w'.code = some (fn r).Status ∧
      w'.header = c.w.header ++ headerPairs (fn r).Headers ∧
      w'.commits = c.w.commits + 1 ∧
      (msg = "Error streaming response body" ∨ msg = "Error flushing buffered response") := by
  have hv : ¬((fn r).Status < 100 ∨ (fn r).Status > 599) := by omega
  have hAH := applyHeaders_spec (fn r).Headers c.w
  have hAHcode : (applyHeaders c.w (fn r).Headers).code = none := by
    rw [hAH]; exact hfresh
  have hw1code :
      ((applyHeaders c.w (fn r).Headers).writeHeader (fn r).Status).code =
        some (fn r).Status := by
    rw [writeHeader_of_none hAHcode]
  have hw1header :
      ((applyHeaders c.w (fn r).Headers).writeHeader (fn r).Status).header =
        c.w.header ++ headerPairs (fn r).Headers := by
    rw [writeHeader_header, hAH]
  have hw1commits :
      ((applyHeaders c.w (fn r).Headers).writeHeader (fn r).Status).commits =
        c.w.commits + 1 := by
    rw [writeHeader_of_none hAHcode, hAH]
  rcases hfail with ⟨hbuf, herr⟩ | ⟨hbuf, hok, herr⟩
  · rw [run_stream re fn r c b hv hb hbuf]
    have hstep :
        (Trace.writeHeader (fn r).Status (streamBody re.logger r.path b)).run
            ⟨applyHeaders c.w (fn r).Headers, c.logs⟩ =
          (streamBody re.logger r.path b).run
            ⟨(applyHeaders c.w (fn r).Headers).writeHeader (fn r).Status, c.logs⟩ := rfl
    rw [hstep, run_streamBody, herr]
    have hrw := runW_committed b _ hw1code
    refine ⟨_, "Error streaming response body", rfl, ?_, ?_, ?_, Or.inl rfl⟩
    · rw [hrw.1]
    · rw [hrw.2.2.1, hw1header]
    · rw [hrw.2.1, hw1commits]
  · have hrb : b.runBuf "" = ((b.runBuf "").1, none) := by
      rw [← hok]
    rw [run_buffered_ok re fn r c b (b.runBuf "").1 hv hb hbuf hrb]
    have hstep :
        (Trace.writeHeader (fn r).Status (flushTr re.logger r.path (b.runBuf "").1)).run
            ⟨applyHeaders c.w (fn r).Headers, c.logs⟩ =
          (flushTr re.logger r.path (b.runBuf "").1).run
            ⟨(applyHeaders c.w (fn r).Headers).writeHeader (fn r).Status, c.logs⟩ := rfl
    rw [hstep, run_flushTr, herr]
    have hwt := writeTo_fst_of_committed hw1code (b.runBuf "").1
    refine ⟨_, "Error flushing buffered response", rfl, ?_, ?_, ?_, Or.inr rfl⟩
    · rw [hwt.1]
    · rw [hwt.2.2, hw1header]
    · rw [hwt.2.1, hw1commits]

/-- C3 counterexample: in buffered mode with a failing body procedure
(the test suite's "fail on purpose" handler), the client receives
status 500 but the client-visible body is the generic status text
"Internal Server Error\n", not empty — refuting the claim that the body
is empty. -/
theorem c3_counterexample :
    (Responder.HandlerFunc ⟨none, true⟩
        (fun _ => ⟨200, [], some (.fail "fail on purpose")⟩) req0).run freshCtx =
      .ok ⟨⟨[("Content-Type", "text/plain; charset=utf-8"),
             ("X-Content-Type-Options", "nosniff")], some 500,
            "Internal Server Error\n", 1, none⟩,
           [bufferErrEntry 0 "/" "fail on purpose"]⟩ ∧
    "Internal Server Error\n" ≠ "" := by
  exact ⟨by decide, by decide⟩

/-- C3 amended: for every request in buffered mode whose body procedure
fails (before any bytes reach the client), the client receives status
500 with exactly one buffering-error log entry, and the client-visible
body gains only the generic 500 status text — none of the Response's
body bytes are sent. -/
theorem c3_amended (re : Responder) (fn : ResponseHandlerFunc) (r : Request) (c : Ctx)
    (b : BodyW) (e : String)
    (hbuf : re.Buffer = true)
    (hb : (fn r).WriteBody = some b)
    (hlo : 100 ≤ (fn r).Status) (hhi : (fn r).Status ≤ 599)
    (hfail : (b.runBuf "").2 = some e)
    (hfresh : c.w.code = none) (hfw : c.w.failWrite = none) :
    ∃ w',
      (Responder.HandlerFunc re fn r).run c =
        .ok ⟨w', c.logs ++ [bufferErrEntry re.logger r.path e]⟩ ∧
      w'.code = some 500 ∧
      w'.body = c.w.body ++ (statusText500 ++ "\n") := by
  have hv : ¬((fn r).Status < 100 ∨ (fn r).Status > 599) := by omega
  have hrb : b.runBuf "" = ((b.runBuf "").1, some e) := by
    rw [← hfail]
  rw [run_buffered_err re fn r c b (b.runBuf "").1 e hv hb hbuf hrb]
  have hAH := applyHeaders_spec (fn r).Headers c.w
  have hAHcode : (applyHeaders c.w (fn r).Headers).code = none := by
    rw [hAH]; exact hfresh
  have hAHfw : (applyHeaders c.w (fn r).Headers).failWrite = none := by
    rw [hAH]; exact hfw
  have hs := httpErrorRW_spec hAHcode statusText500 500
  refine ⟨httpErrorRW (applyHeaders c.w (fn r).Headers) statusText500 500, rfl,
    hs.1, ?_⟩
  rw [hs.2.2 hAHfw, hAH]

/-- C4: on every execution path of the dispatcher-produced handler
(invalid status, nil body, streaming success or failure, buffered
success, buffered body-write failure, buffered flush failure), exactly
one status code is committed to the output sink, and a log record is
emitted exactly on the error paths — exactly one, at error level. -/
theorem c4_single_commit (re : Responder) (fn : ResponseHandlerFunc) (r : Request)
    (c : Ctx)
    (hfresh : c.w.code = none) (hcz : c.w.commits = 0) :
    ∃ w' ls,
      (Responder.HandlerFunc re fn r).run c = .ok ⟨w', c.logs ++ ls⟩ ∧
      w'.commits = 1 ∧
      ls.length = (if dispatchErr re fn r c.w then 1 else 0) ∧
      ∀ en ∈ ls, en.level = .error := by
  have hAH := applyHeaders_spec (fn r).Headers c.w
  have hAHcode : (applyHeaders c.w (fn r).Headers).code = none := by
    rw [hAH]; exact hfresh
  have hAHcommits : (applyHeaders c.w (fn r).Headers).commits = 0 := by
    rw [hAH]; exact hcz
  have hw1code :
      ((applyHeaders c.w (fn r).Headers).writeHeader (fn r).Status).code =
        some (fn r).Status := by
    rw [writeHeader_of_none hAHcode]
  have hw1commits :
      ((applyHeaders c.w (fn r).Headers).writeHeader (fn r).Status).commits = 1 := by
    rw [writeHeader_of_none hAHcode, hAHcommits]
  by_cases hinv : (fn r).Status < 100 ∨ (fn r).Status > 599
  · have hs := httpErrorRW_spec hfresh statusText500 500
    refine ⟨httpErrorRW c.w statusText500 500, [invalidStatusEntry re.logger r],
      run_invalid re fn r c hinv, by rw [hs.2.1, hcz], ?_, ?_⟩
    · simp [dispatchErr, if_pos hinv]
    · intro en hen
      simp at hen
      rw [hen]; rfl
  · cases hwb : (fn r).WriteBody with
    | none =>
      refine ⟨(applyHeaders c.w (fn r).Headers).writeHeader (fn r).Status, [], ?_,
        hw1commits, ?_, by intro en hen; cases hen⟩
      · rw [run_nilBody re fn r c hinv hwb, List.append_nil]
        rfl
      · simp [dispatchErr, if_neg hinv, hwb]
    | some b =>
      cases hbuf : re.Buffer with
      | false =>
        refine ⟨(b.runW ((applyHeaders c.w (fn r).Headers).writeHeader (fn r).Status)).1,
          (match (b.runW ((applyHeaders c.w (fn r).Headers).writeHeader (fn r).Status)).2 with
           | none => []
           | some e => [streamErrEntry re.logger r.path e]), ?_, ?_, ?_, ?_⟩
        · rw [run_stream re fn r c b hinv hwb hbuf]
          show (streamBody re.logger r.path b).run
              ⟨(applyHeaders c.w (fn r).Headers).writeHeader (fn r).Status, c.logs⟩ = _
          rw [run_streamBody]
        · rw [(runW_committed b _ hw1code).2.1, hw1commits]
        · simp only [dispatchErr, if_neg hinv, hwb, hbuf]
          cases herr :
              (b.runW ((applyHeaders c.w (fn r).Headers).writeHeader (fn r).Status)).2 <;>
            simp [herr]
        · intro en hen
          cases herr :
              (b.runW ((applyHeaders c.w (fn r).Headers).writeHeader (fn r).Status)).2 with
          | none => rw [herr] at hen; cases hen
          | some e =>
            rw [herr] at hen
            simp at hen
            rw [hen]; rfl
      | true =>
        cases hrbE : b.runBuf "" with
        | mk buf err =>
          cases err with
          | some e =>
            have hs := httpErrorRW_spec hAHcode statusText500 500
            refine ⟨httpErrorRW (applyHeaders c.w (fn r).Headers) statusText500 500,
              [bufferErrEntry re.logger r.path e], ?_, by rw [hs.2.1, hAHcommits], ?_, ?_⟩
            · rw [run_buffered_err re fn r c b buf e hinv hwb hbuf hrbE]
              rfl
            · simp [dispatchErr, if_neg hinv, hwb, hbuf, hrbE]
            · intro en hen
              simp at hen
              rw [hen]; rfl
          | none =>
            refine ⟨(writeTo buf ((applyHeaders c.w (fn r).Headers).writeHeader
                (fn r).Status)).1,
              (match (writeTo buf ((applyHeaders c.w (fn r).Headers).writeHeader
                  (fn r).Status)).2 with
               | none => []
               | some e => [flushErrEntry re.logger r.path e]), ?_, ?_, ?_, ?_⟩
            · rw [run_buffered_ok re fn r c b buf hinv hwb hbuf hrbE]
              show (flushTr re.logger r.path buf).run
                  ⟨(applyHeaders c.w (fn r).Headers).writeHeader (fn r).Status, c.logs⟩ = _
              rw [run_flushTr]
            · rw [(writeTo_fst_of_committed hw1code buf).2.1, hw1commits]
            · simp only [dispatchErr, if_neg hinv, hwb, hbuf, hrbE]
              cases herr :
                  (writeTo buf ((applyHeaders c.w (fn r).Headers).writeHeader
                    (fn r).Status)).2 <;> simp [herr]
            · intro en hen
              cases herr :
                  (writeTo buf ((applyHeaders c.w (fn r).Headers).writeHeader
                    (fn r).Status)).2 with
              | none => rw [herr] at hen; cases hen
              | some e =>
                rw [herr] at hen
                simp at hen
                rw [hen]; rfl

theorem run_signCore (ms : List String) (c : Ctx) (hfw : c.w.failWrite = none) :
    ∃ w,
      (writesTr ms (Trace.write "core" (fun _ => Trace.done))).run c = .ok ⟨w, c.logs⟩ ∧
      w.body = c.w.body ++ (String.join ms ++ "core") := by
  rw [run_writesTr ms _ c hfw]
  have hwa := writeAll_body ms c.w hfw
  refine ⟨((writeAll c.w ms).write "core").1, rfl, ?_⟩
  rw [write_of_ok hwa.2]
  show (writeAll c.w ms).body ++ "core" = c.w.body ++ (String.join ms ++ "core")
  rw [hwa.1, str_append_assoc]

theorem queue_sign_eq (msgs : List String) (r : Request) :
    Queue (msgs.map sign) coreHandler r =
      writesTr msgs.reverse (Trace.write "core" (fun _ => Trace.done)) :=
  foldl_sign msgs coreHandler r

theorem stack_sign_eq (msgs : List String) (r : Request) :
    Stack (msgs.map sign) coreHandler r =
      writesTr msgs (Trace.write "core" (fun _ => Trace.done)) := by
  show (List.foldl (fun acc m => m acc) coreHandler ((msgs.map sign).reverse)) r = _
  rw [← List.map_reverse sign msgs]
  rw [foldl_sign msgs.reverse coreHandler r, List.reverse_reverse]
  rfl

theorem join_reverse_getLast (msgs : List String) (hne : msgs ≠ []) :
    String.join msgs.reverse =
      msgs.getLast hne ++ String.join msgs.dropLast.reverse := by
  conv_lhs => rw [← List.dropLast_append_getLast hne]
  rw [List.reverse_append, List.reverse_singleton, List.singleton_append, str_join_cons]

/-- C6: for every non-empty wrapper sequence, Queue applied to the
test-suite sign wrappers around the core handler writes the marks in
reverse supply order (last-supplied wrapper outermost) and Stack writes
them in supply order (first-supplied wrapper outermost); concretely,
Queue over [m1_, m2_] yields "m2_m1_core" and Stack yields "m1_m2_core". -/
theorem c6_queue_stack_order (msgs : List String) (hne : msgs ≠ []) (r : Request)
    (c : Ctx) (hfw : c.w.failWrite = none) :
    (∃ w₁, (Queue (msgs.map sign) coreHandler r).run c = .ok ⟨w₁, c.logs⟩ ∧
      w₁.body = c.w.body ++ (String.join msgs.reverse ++ "core")) ∧
    (∃ w₂, (Stack (msgs.map sign) coreHandler r).run c = .ok ⟨w₂, c.logs⟩ ∧
      w₂.body = c.w.body ++ (String.join msgs ++ "core")) ∧
    (∃ w₃, (Queue [sign "m1_", sign "m2_"] coreHandler req0).run freshCtx =
      .ok ⟨w₃, []⟩ ∧ w₃.body = "m2_m1_core") ∧
    (∃ w₄, (Stack [sign "m1_", sign "m2_"] coreHandler req0).run freshCtx =
      .ok ⟨w₄, []⟩ ∧ w₄.body = "m1_m2_core") := by
  refine ⟨?_, ?_, ?_, ?_⟩
  · rw [queue_sign_eq]
    exact run_signCore msgs.reverse c hfw
  · rw [stack_sign_eq]
    exact run_signCore msgs c hfw
  · exact ⟨⟨[], some 200, "m2_m1_core", 1, none⟩, by decide, by decide⟩
  · exact ⟨⟨[], some 200, "m1_m2_core", 1, none⟩, by decide, by decide⟩

/-- C7 counterexample: for the sign wrappers [m1_, m2_], Queue's
observable write order is "m2_m1_core" — w1's mark is not first, so w1
is not outermost and does not execute first on the way in. -/
theorem c7_counterexample :
    (Queue [sign "m1_", sign "m2_"] coreHandler req0).run freshCtx =
      .ok ⟨⟨[], some 200, "m2_m1_core", 1, none⟩, []⟩ ∧
    "m1_".data.isPrefixOf "m2_m1_core".data = false := by
  exact ⟨by decide, by decide⟩

/-- C7 amended: for every non-empty wrapper sequence, Queue applies the
wrappers so that the last-supplied wrapper wn is outermost — its mark is
written first — while w1 is innermost (its mark is written last, right
before the core handler's). -/
theorem c7_amended (msgs : List String) (hne : msgs ≠ []) (r : Request) (c : Ctx)
    (hfw : c.w.failWrite = none) :
    ∃ w₁, (Queue (msgs.map sign) coreHandler r).run c = .ok ⟨w₁, c.logs⟩ ∧
      w₁.body = c.w.body ++
        (msgs.getLast hne ++ (String.join msgs.dropLast.reverse ++ "core")) := by
  rw [queue_sign_eq]
  obtain ⟨w₁, hrun, hbody⟩ := run_signCore msgs.reverse c hfw
  refine ⟨w₁, hrun, ?_⟩
  rw [hbody, join_reverse_getLast msgs hne, str_append_assoc]

/-- C5 counterexample: a handler that commits status 200 and writes "x"
before panicking keeps status 200 at the client even though the fallback
handler's own output carries status 500 — the fallback's status does not
reach the client, refuting the claim for handlers that write before the
fault. -/
theorem c5_counterexample :
    (RecoverAndHandle
        (fun _ => .writeHeader 500 (.write "caught panic" (fun _ => .done)))
        none "s"
        (fun _ => .writeHeader 200 (.write "x" (fun _ => .panic "boom")))
        req0).run freshCtx =
      .ok ⟨⟨[], some 200, "xcaught panic", 1, none⟩, [panicEntry 0 "boom" "s"]⟩ ∧
    (Trace.writeHeader 500 (.write "caught panic" (fun _ => .done))).run freshCtx =
      .ok ⟨⟨[], some 500, "caught panic", 1, none⟩, []⟩ ∧
    some (200 : Int) ≠ some 500 := by
  exact ⟨by rfl, by rfl, by decide⟩

/-- C5 amended: if the wrapped handler panics, the barrier logs exactly
one error entry — the fault's string representation plus the captured
stack as an ordered list of lines, regardless of whether a logger is
configured — then runs the fallback handler against the same
request/response context, so the fallback's output reaches the client
only insofar as the handler's pre-panic writes (committed status, body
bytes) allow; a handler that completes normally passes through unchanged
with no panic log entry. -/
theorem c5_amended (fb : Handler) (lgO : Option Nat) (stack : String) (h : Handler)
    (r : Request) (c : Ctx) :
    (∀ c' v, (h r).run c = .panicked c' v →
      (RecoverAndHandle fb lgO stack h r).run c =
        (fb r).run ⟨c'.w, c'.logs ++ [panicEntry (resolveLogger lgO) v stack]⟩ ∧
      (panicEntry (resolveLogger lgO) v stack).level = .error ∧
      (panicEntry (resolveLogger lgO) v stack).fields =
        [("error", .str v), ("stack", .strList (stack.splitOn "\n"))]) ∧
    (∀ c₂, (h r).run c = .ok c₂ →
      (RecoverAndHandle fb lgO stack h r).run c = .ok c₂) := by
  constructor
  · intro c' v hp
    refine ⟨?_, rfl, rfl⟩
    show (recoverTr (fb r) (resolveLogger lgO) stack (h r)).run c = _
    rw [run_recoverTr, hp]
  · intro c₂ hok
    show (recoverTr (fb r) (resolveLogger lgO) stack (h r)).run c = _
    rw [run_recoverTr, hok]

/-- C8 counterexample: a handler that writes a body but never sets a
status is logged with status 0, not the implicit 200 — the capture
adapter does not treat an unset status as OK (even though the client
received the implicit 200). -/
theorem c8_counterexample :
    (AccessLogger (some 3) "p" 7 (fun _ => .write "x" (fun _ => .done)) req0).run
        freshCtx =
      .ok ⟨⟨[], some 200, "x", 1, none⟩, [accessEntry 3 "p" req0 0 7]⟩ ∧
    ("status", FieldVal.int 0) ∈ (accessEntry 3 "p" req0 0 7).fields ∧
    FieldVal.int 0 ≠ FieldVal.int 200 := by
  exact ⟨by decide, by decide, by decide⟩

/-- C8 amended: for every request whose wrapped handler returns
normally, AccessLogger emits exactly one structured record after the
handler, with fields source address, method, request path with query,
protocol, final captured status, user agent and duration; the capture
adapter converts an explicit zero status-setting call to 200, while a
request that never sets a status is recorded with status 0. -/
theorem c8_access_record :
    captureWriterConvert 0 = 200 ∧
    ∀ (lgO : Option Nat) (pre : String) (el : Nat) (h : Handler) (r : Request)
      (c : Ctx) (c₁ : Ctx) (s' : Int),
      runCap (h r) c 0 = (.ok c₁, s') →
      (AccessLogger lgO pre el h r).run c =
        .ok ⟨c₁.w, c₁.logs ++ [accessEntry (resolveLogger lgO) pre r s' el]⟩ ∧
      (accessEntry (resolveLogger lgO) pre r s' el).fields =
        [("src", .str r.remoteAddr), ("method", .str r.method),
         ("dest", .str r.requestURI), ("proto", .str r.proto),
         ("status", .int s'), ("user-agent", .str r.userAgent),
         ("duration", .dur el)] := by
  refine ⟨rfl, ?_⟩
  intro lgO pre el h r c c₁ s' hcap
  refine ⟨?_, rfl⟩
  show (accessTr (resolveLogger lgO) pre r el 0 (h r)).run c = _
  rw [run_accessTr, hcap]

end Web

namespace Web

/-! ## Witnesses: concrete instantiations of the hypothesis-bearing
claim theorems, with every hypothesis discharged on explicit inputs. -/

/-- Witness for C1 at the test suite's `Response{Status: 0}` handler. -/
theorem c1_witness :
    ∃ w',
      (Responder.HandlerFunc ⟨none, false⟩
          (fun _ => ⟨0, [], none⟩) req0).run freshCtx =
        .ok ⟨w', [invalidStatusEntry 0 req0]⟩ ∧
      w'.code = some 500 := by
  obtain ⟨w', hrun, hcode, -⟩ :=
    c1_invalid_status ⟨none, false⟩ (fun _ => ⟨0, [], none⟩) req0 freshCtx
      (Or.inl (by decide)) rfl rfl
  exact ⟨w', hrun, hcode⟩

/-- Witness for C2 at the test suite's erroring streaming handler. -/
theorem c2_witness :
    ∃ w' msg,
      (Responder.HandlerFunc ⟨none, false⟩
          (fun _ => ⟨200, [], some (.fail "fail on purpose")⟩) req0).run freshCtx =
        .ok ⟨w', [⟨0, .error, msg,
          [("path", .str "/"), ("error", .str "fail on purpose")]⟩]⟩ ∧
      w'.code = some 200 := by
  obtain ⟨w', msg, hrun, hcode, -, -, -⟩ :=
    c2_post_commit ⟨none, false⟩ (fun _ => ⟨200, [], some (.fail "fail on purpose")⟩)
      req0 freshCtx (.fail "fail on purpose") "fail on purpose" rfl rfl
      (by decide) (by decide) (Or.inl ⟨rfl, rfl⟩)
  exact ⟨w', msg, hrun, hcode⟩

/-- Witness for the amended C3 at the test suite's erroring buffered
handler. -/
theorem c3_witness :
    ∃ w',
      (Responder.HandlerFunc ⟨none, true⟩
          (fun _ => ⟨200, [], some (.fail "fail on purpose")⟩) req0).run freshCtx =
        .ok ⟨w', [bufferErrEntry 0 "/" "fail on purpose"]⟩ ∧
      w'.code = some 500 ∧
      w'.body = "" ++ (statusText500 ++ "\n") := by
  obtain ⟨w', hrun, hcode, hbody⟩ :=
    c3_amended ⟨none, true⟩ (fun _ => ⟨200, [], some (.fail "fail on purpose")⟩)
      req0 freshCtx (.fail "fail on purpose") "fail on purpose" rfl rfl
      (by decide) (by decide) rfl rfl rfl
  exact ⟨w', hrun, hcode, hbody⟩

/-- Witness for C4 at a nil-body 204 handler on a fresh sink. -/
theorem c4_witness :
    ∃ w' ls,
      (Responder.HandlerFunc ⟨none, false⟩
          (fun _ => ⟨204, [], none⟩) req0).run freshCtx = .ok ⟨w', [] ++ ls⟩ ∧
      w'.commits = 1 ∧
      ls.length =
        (if dispatchErr ⟨none, false⟩ (fun _ => ⟨204, [], none⟩) req0 freshRW
         then 1 else 0) ∧
      ∀ en ∈ ls, en.level = .error :=
  c4_single_commit ⟨none, false⟩ (fun _ => ⟨204, [], none⟩) req0 freshCtx rfl rfl

/-- Witness for the amended C5 at a handler that panics immediately. -/
theorem c5_witness :
    (RecoverAndHandle
        (fun _ => .writeHeader 500 (.write "caught panic" (fun _ => .done)))
        none "l1\nl2" (fun _ => .panic "boom") req0).run freshCtx =
      ((fun (_ : Request) =>
          Trace.writeHeader 500 (.write "caught panic" (fun _ => .done))) req0).run
        ⟨freshCtx.w, [] ++ [panicEntry 0 "boom" "l1\nl2"]⟩ ∧
    (panicEntry 0 "boom" "l1\nl2").level = .error ∧
    (panicEntry 0 "boom" "l1\nl2").fields =
      [("error", .str "boom"), ("stack", .strList ("l1\nl2".splitOn "\n"))] :=
  (c5_amended (fun _ => .writeHeader 500 (.write "caught panic" (fun _ => .done)))
    none "l1\nl2" (fun _ => .panic "boom") req0 freshCtx).1 freshCtx "boom" rfl

/-- Witness for C6 at the test suite's [m1_, m2_] wrappers. -/
theorem c6_witness :
    (∃ w₁, (Queue (["m1_", "m2_"].map sign) coreHandler req0).run freshCtx =
      .ok ⟨w₁, []⟩ ∧
      w₁.body = "" ++ (String.join ["m1_", "m2_"].reverse ++ "core")) ∧
    (∃ w₂, (Stack (["m1_", "m2_"].map sign) coreHandler req0).run freshCtx =
      .ok ⟨w₂, []⟩ ∧
      w₂.body = "" ++ (String.join ["m1_", "m2_"] ++ "core")) := by
  obtain ⟨h1, h2, -, -⟩ :=
    c6_queue_stack_order ["m1_", "m2_"] (by decide) req0 freshCtx rfl
  exact ⟨h1, h2⟩

/-- Witness for the amended C7 at the test suite's [m1_, m2_] wrappers. -/
theorem c7_witness :
    ∃ w₁, (Queue (["m1_", "m2_"].map sign) coreHandler req0).run freshCtx =
      .ok ⟨w₁, []⟩ ∧
      w₁.body = "" ++
        (["m1_", "m2_"].getLast (by decide) ++
          (String.join ["m1_", "m2_"].dropLast.reverse ++ "core")) :=
  c7_amended ["m1_", "m2_"] (by decide) req0 freshCtx rfl

/-- Witness for the amended C8 at a handler that sets status 404. -/
theorem c8_witness :
    (AccessLogger (some 5) "req" 9
        (fun _ => .writeHeader 404 .done) req0).run freshCtx =
      .ok ⟨⟨[], some 404, "", 1, none⟩,
           [] ++ [accessEntry 5 "req" req0 404 9]⟩ ∧
    (accessEntry 5 "req" req0 404 9).fields =
      [("src", .str "192.0.2.1:1234"), ("method", .str "GET"),
       ("dest", .str "/"), ("proto", .str "HTTP/1.1"),
       ("status", .int 404), ("user-agent", .str "Go-http-client/1.1"),
       ("duration", .dur 9)] :=
  c8_access_record.2 (some 5) "req" 9 (fun _ => .writeHeader 404 .done) req0 freshCtx
    ⟨⟨[], some 404, "", 1, none⟩, []⟩ 404 rfl

/-- Witness for C9 at the test suite's nil-body 204 handler with a
custom header. -/
theorem c9_witness :
    (Responder.HandlerFunc ⟨none, false⟩
        (fun _ => ⟨204, [("X-Custom", ["no body"])], none⟩) req0).run freshCtx =
      .ok ⟨⟨[("X-Custom", "no body")], some 204, "", 1, none⟩, []⟩ :=
  c9_nil_body ⟨none, false⟩ (fun _ => ⟨204, [("X-Custom", ["no body"])], none⟩)
    req0 freshCtx (by decide) (by decide) rfl rfl

/-- Witness for C10 at two Responses with invalid statuses but different
headers and bodies. -/
theorem c10_witness :
    (Responder.HandlerFunc ⟨none, false⟩
        (fun _ => ⟨0, [("X-Custom", ["a"])], none⟩) req0).run freshCtx =
      (Responder.HandlerFunc ⟨none, false⟩
        (fun _ => ⟨700, [], some (.fail "z")⟩) req0).run freshCtx ∧
    (Responder.HandlerFunc ⟨none, false⟩
        (fun _ => ⟨0, [("X-Custom", ["a"])], none⟩) req0).run freshCtx =
      .ok ⟨httpErrorRW freshRW statusText500 500, [invalidStatusEntry 0 req0]⟩ :=
  c10_invalid_headers_discarded ⟨none, false⟩
    (fun _ => ⟨0, [("X-Custom", ["a"])], none⟩)
    (fun _ => ⟨700, [], some (.fail "z")⟩) req0 freshCtx
    (Or.inl (by decide)) (Or.inr (by decide))

end Web
